import Mathlib

/-!
Shallow embedding of `src/184FinalProject/ShaderTypes.h`, the shared
host/device header of a Metal tile-based progressive path tracer, and a
model of the tile accumulation lifecycle described by the design
specification.  The header's structs, enums and `#define` constants are
embedded as explicit field/constant lists together with a C struct-layout
calculator (sizes, offsets, padding) evaluated for the host environment
(64-bit Apple platform, where `NSInteger` is 8 bytes and the simd vector
types are the non-packed 16-byte-aligned ones) and for the device
environment (Metal, where `EnumBackingType` is `metal::int32_t`, 4 bytes).
The Sample Accumulator, Tile Grid and Frame Sequencer are not part of the
repository snapshot (only their shared data layouts are); the definitions
for those carry a doc comment starting `Modelled from the spec:`.
-/

namespace ShaderTypes

/-- Scalar / vector C types appearing in the header's struct fields, as
spelled in `ShaderTypes.h` (`float`, `simd_float2`, `simd_float3` /
`vector_float3`, `vector_float4`, `matrix_float4x4`, `uint32_t` / `uint`,
`bool`, and the `EnumBackingType` typedef). -/
inductive CTy where
  | float
  | float2
  | float3
  | float4
  | float4x4
  | uint32
  | boolTy
  | enumBacking
deriving DecidableEq, Repr

/-- The two compilation environments the header is shared between. -/
inductive Env where
  | host
  | device
deriving DecidableEq, Repr

/-- `#define TILE_SIZE 16` -/
def TILE_SIZE : Nat := 16

/-- `#define MAX_TRIANGLES_IN_TILE 32` -/
def MAX_TRIANGLES_IN_TILE : Nat := 32

/-- `#define MAX_QUADS_IN_TILE 32` -/
def MAX_QUADS_IN_TILE : Nat := 32

/-- `#define MAX_SAMPLES_PER_TILE 64` -/
def MAX_SAMPLES_PER_TILE : Nat := 64

/-- Names of the `typedef struct` declarations in `ShaderTypes.h`, in
source order. -/
def headerStructNames : List String :=
  ["Uniforms", "UniformsArray", "ComputeParams", "TileData", "TileOutput"]

/-- Names of the `NS_ENUM(EnumBackingType, _)` declarations in
`ShaderTypes.h`, in source order. -/
def headerEnumNames : List String :=
  ["BufferIndex", "VertexAttribute", "TextureIndex", "ThreadgroupIndex"]

/-- Constants of `BufferIndex`, with their values. -/
def bufferIndexConstants : List (String × Int) :=
  [("BufferIndexMeshPositions", 0), ("BufferIndexMeshGenerics", 1),
   ("BufferIndexUniforms", 2), ("BufferIndexTileData", 3)]

/-- Constants of `VertexAttribute`, with their values. -/
def vertexAttributeConstants : List (String × Int) :=
  [("VertexAttributePosition", 0), ("VertexAttributeTexcoord", 1)]

/-- Constants of `TextureIndex`, with their values. -/
def textureIndexConstants : List (String × Int) :=
  [("TextureIndexColor", 0), ("TextureIndexCompute", 1),
   ("TextureIndexTileData", 2)]

/-- Constants of `ThreadgroupIndex`, with their values. -/
def threadgroupIndexConstants : List (String × Int) :=
  [("ThreadgroupIndexTileData", 0), ("ThreadgroupIndexAccumData", 1)]

/-- Fields of `Uniforms`, in declaration order. -/
def uniformsFields : List (String × CTy) :=
  [("projectionMatrix", CTy.float4x4), ("modelViewMatrix", CTy.float4x4)]

/-- Fields of `ComputeParams`, in declaration order. -/
def computeParamsFields : List (String × CTy) :=
  [("time", CTy.float), ("resolution", CTy.float2),
   ("frameIndex", CTy.uint32), ("sampleCount", CTy.uint32),
   ("cameraPosition", CTy.float3), ("viewMatrix", CTy.float4x4),
   ("fovY", CTy.float)]

/-- Fields of `TileData`, in declaration order. -/
def tileDataFields : List (String × CTy) :=
  [("accumulatedColor", CTy.float4), ("sampleCount", CTy.uint32),
   ("minBounds", CTy.float3), ("maxBounds", CTy.float3),
   ("tileIndex", CTy.uint32), ("needsReset", CTy.boolTy)]

/-- Fields of `TileOutput`, in declaration order. -/
def tileOutputFields : List (String × CTy) :=
  [("color", CTy.float4), ("sampleCount", CTy.uint32)]

/-- The field-type sequence of `ComputeParams` as the specification's
interface section claims it: time, 2-component resolution, frame index,
sample count, 3-component camera position, view matrix, inverse view
matrix, projection matrix, vertical and horizontal field of view, lens
radius, focal distance, spherical and cylindrical aberration coefficients,
axis, active-triangle count.  Stated from the spec's words, for comparison
against the header's actual declaration. -/
def specComputeParamsFieldTypes : List CTy :=
  [CTy.float, CTy.float2, CTy.uint32, CTy.uint32, CTy.float3,
   CTy.float4x4, CTy.float4x4, CTy.float4x4, CTy.float, CTy.float,
   CTy.float, CTy.float, CTy.float, CTy.float, CTy.float, CTy.uint32]

/-- Size in bytes of each scalar/vector type in each environment.  Both
environments lay out `float`, `uint`, `bool` and the simd vector and
matrix types identically (non-packed `float3` occupies 16 bytes on both
sides); only `EnumBackingType` differs: `NSInteger` (8 bytes, LP64 host)
versus `metal::int32_t` (4 bytes, device). -/
def scalarSize : Env → CTy → Nat
  | _, CTy.float => 4
  | _, CTy.float2 => 8
  | _, CTy.float3 => 16
  | _, CTy.float4 => 16
  | _, CTy.float4x4 => 64
  | _, CTy.uint32 => 4
  | _, CTy.boolTy => 1
  | Env.host, CTy.enumBacking => 8
  | Env.device, CTy.enumBacking => 4

/-- Alignment in bytes of each scalar/vector type in each environment. -/
def scalarAlign : Env → CTy → Nat
  | _, CTy.float => 4
  | _, CTy.float2 => 8
  | _, CTy.float3 => 16
  | _, CTy.float4 => 16
  | _, CTy.float4x4 => 16
  | _, CTy.uint32 => 4
  | _, CTy.boolTy => 1
  | Env.host, CTy.enumBacking => 8
  | Env.device, CTy.enumBacking => 4

/-- Round `off` up to the next multiple of `a`. -/
def alignUp (off a : Nat) : Nat := (off + a - 1) / a * a

/-- Byte offsets of a struct's fields under the standard C layout rule:
each field is placed at the next offset aligned for its type. -/
def fieldOffsets (e : Env) : List CTy → Nat → List Nat
  | [], _ => []
  | t :: ts, off =>
      alignUp off (scalarAlign e t) ::
        fieldOffsets e ts (alignUp off (scalarAlign e t) + scalarSize e t)

/-- The offset one past the last field (before tail padding). -/
def structEndOff (e : Env) : List CTy → Nat → Nat
  | [], off => off
  | t :: ts, off =>
      structEndOff e ts (alignUp off (scalarAlign e t) + scalarSize e t)

/-- A struct's alignment: the maximum alignment of its fields. -/
def structAlign (e : Env) (ts : List CTy) : Nat :=
  ts.foldl (fun a t => max a (scalarAlign e t)) 1

/-- A struct's size: the end offset rounded up to the struct alignment. -/
def structSize (e : Env) (ts : List CTy) : Nat :=
  alignUp (structEndOff e ts 0) (structAlign e ts)

/-- A struct's full byte layout: field offsets, total size, alignment. -/
def structLayout (e : Env) (ts : List CTy) : List Nat × Nat × Nat :=
  (fieldOffsets e ts 0, structSize e ts, structAlign e ts)

/-- A struct contains compiler-inserted (implicit) padding exactly when
its laid-out size exceeds the sum of its field sizes. -/
def hasImplicitPadding (e : Env) (ts : List CTy) : Bool :=
  structSize e ts != (ts.map (scalarSize e)).sum

/-- The field-type sequences of the header's structs. -/
def uniformsFieldTypes : List CTy := uniformsFields.map Prod.snd

/-- Field types of `ComputeParams`. -/
def computeParamsFieldTypes : List CTy := computeParamsFields.map Prod.snd

/-- Field types of `TileData`. -/
def tileDataFieldTypes : List CTy := tileDataFields.map Prod.snd

/-- Field types of `TileOutput`. -/
def tileOutputFieldTypes : List CTy := tileOutputFields.map Prod.snd

/-- A 4-component color value; exact rational components stand in for the
device floats so that accumulation is an exact, order-independent sum. -/
structure Vec4 where
  x : ℚ
  y : ℚ
  z : ℚ
  w : ℚ
deriving DecidableEq, Repr

/-- The zero color. -/
def Vec4.zero : Vec4 := ⟨0, 0, 0, 0⟩

/-- Componentwise addition. -/
def Vec4.add (a b : Vec4) : Vec4 :=
  ⟨a.x + b.x, a.y + b.y, a.z + b.z, a.w + b.w⟩

/-- Sum of a list of colors. -/
def Vec4.sum (l : List Vec4) : Vec4 := l.foldr Vec4.add Vec4.zero

/-- The per-tile, per-frame phases of the Sample Accumulator's state
machine (`Idle → Tracing → Merged`). -/
inductive TilePhase where
  | Idle
  | Tracing
  | Merged
deriving DecidableEq, Repr

/-- Modelled from the spec: the mutable per-tile accumulation state of the
Sample Accumulator.  The accumulator kernel itself is not in the
repository snapshot; this mirrors `TileData`'s `accumulatedColor` and
`sampleCount` fields plus the spec's lifecycle phase. -/
structure TileState where
  accumulatedColor : Vec4
  sampleCount : Nat
  tileIndex : Nat
  phase : TilePhase
deriving DecidableEq, Repr

/-- Modelled from the spec: a freshly constructed Tile Record — `Idle`,
with zero accumulated color and zero sample count. -/
def initTile (i : Nat) : TileState :=
  { accumulatedColor := Vec4.zero, sampleCount := 0, tileIndex := i,
    phase := TilePhase.Idle }

/-- Modelled from the spec: a reset trigger returns the tile to `Idle`
with `accumulatedColor = 0` and `sampleCount = 0`. -/
def resetTile (t : TileState) : TileState :=
  { t with accumulatedColor := Vec4.zero, sampleCount := 0,
           phase := TilePhase.Idle }

/-- Modelled from the spec: the tile enters `Tracing`; accumulation state
is untouched until the merge. -/
def startTracing (t : TileState) : TileState :=
  { t with phase := TilePhase.Tracing }

/-- Modelled from the spec: the `Merged` step sums this frame's per-
invocation color contributions into `accumulatedColor` (a running sum, not
an average) and increments `sampleCount` by the number of contributions
merged. -/
def mergeTile (t : TileState) (contribs : List Vec4) : TileState :=
  { t with
      accumulatedColor := Vec4.add t.accumulatedColor (Vec4.sum contribs),
      sampleCount := t.sampleCount + contribs.length,
      phase := TilePhase.Merged }

/-- Modelled from the spec: the events that can change a tile's state —
a reset trigger, entering tracing, or a frame's merge. -/
inductive TileStep : TileState → TileState → Prop where
  | reset (t : TileState) : TileStep t (resetTile t)
  | trace (t : TileState) : TileStep t (startTracing t)
  | merge (t : TileState) (contribs : List Vec4) :
      TileStep t (mergeTile t contribs)

/-- Modelled from the spec: tile states reachable from grid construction
by any sequence of resets, tracing starts and merges. -/
inductive ReachableTile : TileState → Prop where
  | init (i : Nat) : ReachableTile (initTile i)
  | step {t u : TileState} : ReachableTile t → TileStep t u → ReachableTile u

/-- Ceiling division. -/
def ceilDiv (a b : Nat) : Nat := (a + b - 1) / b

/-- Modelled from the spec: the tile grid holds one record per
`TILE_SIZE`-pixel square, the resolution divided by `TILE_SIZE` rounded
up in each dimension. -/
def tileGridCount (width height : Nat) : Nat :=
  ceilDiv width TILE_SIZE * ceilDiv height TILE_SIZE

/-- Modelled from the spec: a resolution change destroys the whole grid
and reconstructs it, one fresh `Idle` record per tile. -/
def resizeGrid (width height : Nat) : List TileState :=
  (List.range (tileGridCount width height)).map initTile

/-- Modelled from the spec: the Frame Sequencer's configured target sample
cap, which the spec ties to the shared maximum-samples-per-tile layout
constant. -/
def targetSampleCap : Nat := MAX_SAMPLES_PER_TILE

/-- Modelled from the spec: the sequencer keeps dispatching accumulation
for a tile only while its sample count is below the cap. -/
def sequencerDispatches (t : TileState) : Bool :=
  t.sampleCount < targetSampleCap

/-- Modelled from the spec: the end-to-end convergence scenario renders 64
samples per tile. -/
def convergenceScenarioSamples : Nat := 64

theorem Vec4.add_zero (a : Vec4) : Vec4.add a Vec4.zero = a := by
  cases a
  simp [Vec4.add, Vec4.zero]

theorem Vec4.sum_nil : Vec4.sum [] = Vec4.zero := rfl

theorem zero_count_zero_color_step (t u : TileState) (hs : TileStep t u)
    (ih : t.sampleCount = 0 → t.accumulatedColor = Vec4.zero) :
    u.sampleCount = 0 → u.accumulatedColor = Vec4.zero := by
  cases hs with
  | reset => intro _; rfl
  | trace => exact ih
  | merge contribs =>
      intro h0
      have hlen : contribs.length = 0 := Nat.eq_zero_of_add_eq_zero_left h0
      have hcount : t.sampleCount = 0 := Nat.eq_zero_of_add_eq_zero_right h0
      have hnil : contribs = [] := List.length_eq_zero.mp hlen
      have hc : t.accumulatedColor = Vec4.zero := ih hcount
      show Vec4.add t.accumulatedColor (Vec4.sum contribs) = Vec4.zero
      rw [hnil, Vec4.sum_nil, Vec4.add_zero, hc]

/-- C1 counterexample: the header's `ComputeParams` does not carry the
sixteen fields the specification lists — its seven declared field types
differ from the claimed sequence (no inverse view matrix, projection
matrix, horizontal field of view, lens radius, focal distance, aberration
coefficients, axis, or triangle count). -/
theorem computeParams_differs_from_spec_list :
    computeParamsFieldTypes ≠ specComputeParamsFieldTypes := by
  decide

/-- C1 (amended): the `ComputeParams` record crossing the host/compute
boundary contains, in order, a float time, a 2-component resolution, a
frame index, a sample count, a 3-component camera position, a view matrix,
and a vertical field of view — and no other fields. -/
theorem computeParams_fields_exact :
    computeParamsFields =
      [("time", CTy.float), ("resolution", CTy.float2),
       ("frameIndex", CTy.uint32), ("sampleCount", CTy.uint32),
       ("cameraPosition", CTy.float3), ("viewMatrix", CTy.float4x4),
       ("fovY", CTy.float)] := rfl

/-- C2 counterexample: the shared header declares no struct or enum named
`Triangle` at all, so it does not define the claimed Triangle record. -/
theorem no_triangle_in_header :
    "Triangle" ∉ headerStructNames ++ headerEnumNames := by
  decide

/-- C2 (amended): the shared host/device header defines no Triangle
record; its struct declarations are exactly `Uniforms`, `UniformsArray`,
`ComputeParams`, `TileData` and `TileOutput`.  The Triangle type the spec
describes must live in shader or host code outside this header. -/
theorem header_structs_exact :
    headerStructNames =
      ["Uniforms", "UniformsArray", "ComputeParams", "TileData",
       "TileOutput"]
    ∧ "Triangle" ∉ headerStructNames := by
  exact ⟨rfl, by decide⟩

/-- C3 counterexample: the enums backed by `EnumBackingType` do not have
the same byte layout on host and device (`NSInteger` is 8 bytes on the
64-bit host, `metal::int32_t` is 4 bytes on the device), and `TileData`'s
padding is compiler-inserted, not written as explicit fields. -/
theorem enum_layout_differs_host_device :
    scalarSize Env.host CTy.enumBacking ≠ scalarSize Env.device CTy.enumBacking
    ∧ hasImplicitPadding Env.host tileDataFieldTypes = true := by
  decide

/-- C3 (amended): the header's structs `TileData`, `ComputeParams` and
`Uniforms` do have identical byte layouts (field offsets, total size,
alignment) on host and device, but the `EnumBackingType`-backed enums
differ (8 bytes on the 64-bit host versus 4 bytes on the device), and the
padding inside `TileData` and `ComputeParams` is implicit compiler
padding, not explicit fields (`Uniforms` alone is padding-free). -/
theorem struct_layouts_host_device :
    structLayout Env.host tileDataFieldTypes =
      structLayout Env.device tileDataFieldTypes
    ∧ structLayout Env.host computeParamsFieldTypes =
      structLayout Env.device computeParamsFieldTypes
    ∧ structLayout Env.host uniformsFieldTypes =
      structLayout Env.device uniformsFieldTypes
    ∧ structLayout Env.host tileOutputFieldTypes =
      structLayout Env.device tileOutputFieldTypes
    ∧ scalarSize Env.host CTy.enumBacking = 8
    ∧ scalarSize Env.device CTy.enumBacking = 4
    ∧ hasImplicitPadding Env.host tileDataFieldTypes = true
    ∧ hasImplicitPadding Env.host computeParamsFieldTypes = true
    ∧ hasImplicitPadding Env.host uniformsFieldTypes = false := by
  decide

/-- C4: the `TileData` Tile Record contains, in order, a 4-component
accumulated color, a sample count, 3-component min and max bounds, a tile
index and a reset flag, and no other fields; and (modelled from the spec)
the accumulated color is maintained as a running sum of contributions,
never as an average. -/
theorem tileData_fields_and_sum_merge :
    tileDataFields =
      [("accumulatedColor", CTy.float4), ("sampleCount", CTy.uint32),
       ("minBounds", CTy.float3), ("maxBounds", CTy.float3),
       ("tileIndex", CTy.uint32), ("needsReset", CTy.boolTy)]
    ∧ ∀ (t : TileState) (contribs : List Vec4),
        (mergeTile t contribs).accumulatedColor =
          Vec4.add t.accumulatedColor (Vec4.sum contribs) :=
  ⟨rfl, fun _ _ => rfl⟩

/-- C5: the four layout constants have the values 16, 32, 32 and 64, the
Frame Sequencer's target sample cap (modelled from the spec) is the same
maximum-samples-per-tile value, the 64-samples-per-tile convergence
scenario uses that same value, and the sequencer's dispatch test compares
the tile's sample count against exactly that constant. -/
theorem layout_constants_exact :
    TILE_SIZE = 16 ∧ MAX_TRIANGLES_IN_TILE = 32 ∧ MAX_QUADS_IN_TILE = 32
    ∧ MAX_SAMPLES_PER_TILE = 64
    ∧ targetSampleCap = MAX_SAMPLES_PER_TILE
    ∧ convergenceScenarioSamples = MAX_SAMPLES_PER_TILE
    ∧ ∀ t : TileState,
        sequencerDispatches t = decide (t.sampleCount < MAX_SAMPLES_PER_TILE) :=
  ⟨rfl, rfl, rfl, rfl, rfl, rfl, fun _ => rfl⟩

/-- C6: immediately after any reset trigger a tile's accumulated color and
sample count are both zero, and in every reachable tile state a zero
sample count forces a zero accumulated color. -/
theorem reset_zeroes_and_zero_count_zero_color :
    (∀ t : TileState,
        (resetTile t).accumulatedColor = Vec4.zero
        ∧ (resetTile t).sampleCount = 0)
    ∧ ∀ t : TileState, ReachableTile t → t.sampleCount = 0 →
        t.accumulatedColor = Vec4.zero := by
  refine ⟨fun t => ⟨rfl, rfl⟩, fun t ht => ?_⟩
  induction ht with
  | init i => intro _; rfl
  | step hr hs ih => exact zero_count_zero_color_step _ _ hs ih

/-- C6 witness: a freshly constructed tile is reachable, has sample count
zero, and indeed has zero accumulated color. -/
theorem reset_zeroes_witness :
    (initTile 0).accumulatedColor = Vec4.zero :=
  reset_zeroes_and_zero_count_zero_color.2 (initTile 0)
    (ReachableTile.init 0) rfl

/-- C7: a tile's sample count is a natural number (never negative), is
untouched by entering tracing and never decreased by a merge, a reset sets
it to zero, and the only step that takes a nonzero sample count to zero is
a reset. -/
theorem sampleCount_monotone_and_reset_exact :
    (∀ t : TileState, 0 ≤ t.sampleCount)
    ∧ (∀ t : TileState, (startTracing t).sampleCount = t.sampleCount)
    ∧ (∀ (t : TileState) (contribs : List Vec4),
        t.sampleCount ≤ (mergeTile t contribs).sampleCount)
    ∧ (∀ t : TileState, (resetTile t).sampleCount = 0)
    ∧ ∀ t u : TileState, TileStep t u → t.sampleCount ≠ 0 →
        u.sampleCount = 0 → u = resetTile t := by
  refine ⟨fun t => Nat.zero_le _, fun t => rfl,
    fun t contribs => Nat.le_add_right _ _, fun t => rfl,
    fun t u hs hne h0 => ?_⟩
  cases hs with
  | reset => rfl
  | trace => exact absurd h0 hne
  | merge contribs =>
      exact absurd (Nat.eq_zero_of_add_eq_zero_right h0) hne

/-- C7 witness: resetting a tile that holds one merged sample is the only
step taking its count from 1 to 0, and it lands exactly on the reset
state. -/
theorem sampleCount_reset_exact_witness :
    resetTile (mergeTile (initTile 0) [Vec4.zero]) =
      resetTile (mergeTile (initTile 0) [Vec4.zero]) :=
  sampleCount_monotone_and_reset_exact.2.2.2.2
    (mergeTile (initTile 0) [Vec4.zero])
    (resetTile (mergeTile (initTile 0) [Vec4.zero]))
    (TileStep.reset _) (by decide) rfl

/-- C8: resizing to any resolution rebuilds the grid with exactly
`ceil(width / TILE_SIZE) * ceil(height / TILE_SIZE)` Tile Records, with
`TILE_SIZE = 16`, every record starting in the `Idle` phase with zero
accumulation. -/
theorem resize_rebuilds_idle_grid (width height : Nat) :
    (resizeGrid width height).length =
      ceilDiv width TILE_SIZE * ceilDiv height TILE_SIZE
    ∧ TILE_SIZE = 16
    ∧ ∀ t ∈ resizeGrid width height,
        t.phase = TilePhase.Idle ∧ t.sampleCount = 0 := by
  refine ⟨by simp [resizeGrid, tileGridCount], rfl, fun t ht => ?_⟩
  rcases List.mem_map.mp ht with ⟨i, _, rfl⟩
  exact ⟨rfl, rfl⟩

/-- C8 witness: resizing to 32x17 yields a 2x2 grid whose first tile is
`Idle` with zero samples. -/
theorem resize_rebuilds_idle_grid_witness :
    (initTile 0).phase = TilePhase.Idle ∧ (initTile 0).sampleCount = 0 :=
  (resize_rebuilds_idle_grid 32 17).2.2 (initTile 0) (by decide)

/-- C9: the `TileOutput` record passed from the compute to the fragment
shader consists of exactly a 4-component color and an unsigned sample
count, which is the `TileData` record with the bounds, tile index and
reset flag projected away. -/
theorem tileOutput_projects_tileData :
    tileOutputFields = [("color", CTy.float4), ("sampleCount", CTy.uint32)]
    ∧ tileOutputFieldTypes =
        (tileDataFields.filter fun f =>
          !(f.1 == "minBounds" || f.1 == "maxBounds" || f.1 == "tileIndex"
            || f.1 == "needsReset")).map Prod.snd := by
  exact ⟨rfl, by decide⟩

/-- C10: within each of the four binding enums the constant values are
exactly `0, 1, ..., n-1` — pairwise distinct and consecutive from 0 — so
no two resources bound through the same enum share a slot. -/
theorem binding_enums_distinct_consecutive :
    bufferIndexConstants.map Prod.snd =
      (List.range bufferIndexConstants.length).map Int.ofNat
    ∧ vertexAttributeConstants.map Prod.snd =
        (List.range vertexAttributeConstants.length).map Int.ofNat
    ∧ textureIndexConstants.map Prod.snd =
        (List.range textureIndexConstants.length).map Int.ofNat
    ∧ threadgroupIndexConstants.map Prod.snd =
        (List.range threadgroupIndexConstants.length).map Int.ofNat
    ∧ (bufferIndexConstants.map Prod.snd).Nodup
    ∧ (vertexAttributeConstants.map Prod.snd).Nodup
    ∧ (textureIndexConstants.map Prod.snd).Nodup
    ∧ (threadgroupIndexConstants.map Prod.snd).Nodup := by
  decide

end ShaderTypes
